import Mathlib

/-!
Shallow embedding of the rover control client (src/script.js).

The script is a browser-resident session controller: global mutable state
(roverIP, lastCommand, failCount, currentMode), DOM text fields it writes,
localStorage persistence, and fire-and-forget HTTP GET requests.  Each JS
function is embedded as a Lean function from the session state (plus the
outcomes of the fetches it performs, supplied by the environment) to the new
state together with the list of HTTP requests it issued, in order.  Execution
is modelled sequentially: an async function runs to completion, including the
calls it makes, before anything else runs.  Purely cosmetic DOM work
(updateModeUI visibility toggling, highlightButton CSS classes, the body
background flash in emergencyStop) is not modelled; every DOM text node the
script writes is a String field of the state.  JS numbers carried by telemetry
are modelled as rationals for battery voltage and integers for rssi, distance
and speed; the toFixed(2) pretty-printing of the battery voltage is abstracted
by toString.
-/

namespace EveRover

inductive FetchResult (α : Type) where
  | success (resp : α)
  | failure
deriving DecidableEq

/-- An outbound HTTP GET request, identified by endpoint and query parameters,
including the rover IP the URL is built from. -/

inductive Request where
  | modeReq (ip : String) (mode : String)
  | actionReq (ip : String) (go : String)
  | speedReq (ip : String) (val : Int)
  | statusReq (ip : String)
deriving DecidableEq

/-- The JSON body of a /status response as the script reads it.  A field that
is absent (or null, where the script treats null like absent) is none.  The
script distinguishes null from undefined only for distance, and treats both
the same way, so they are collapsed. -/

structure StatusData where
  battery : Option ℚ
  rssi : Option Int
  command : Option String
  distance : Option Int
  mode : Option String
deriving DecidableEq

/-- Result of response.json(): either a parsed body or a thrown parse error. -/

inductive BodyResult where
  | parsed (data : StatusData)
  | parseError
deriving DecidableEq

/-- A resolved /status response: its ok flag (status in the 2xx range) and
what response.json() yields. -/

structure StatusResp where
  ok : Bool
  body : BodyResult
deriving DecidableEq

/-- The whole mutable session state of the script: the four global variables,
the DOM text nodes the script writes, the inline color style of the distance
value, and the two localStorage keys. -/

structure RoverState where
  roverIP : String
  lastCommand : String
  failCount : Nat
  currentMode : String
  statusText : String
  statusClass : String
  signalText : String
  batteryText : String
  actionText : String
  modeDescHTML : String
  activeModeText : String
  speedDisplayText : String
  distanceValueText : String
  distanceInfoText : String
  distanceColor : String
  storedIP : Option String
  storedMode : Option String
deriving DecidableEq

/-- The modeDescriptions lookup table; indexing with any other key yields
undefined, which innerHTML renders as the string form of undefined. -/

def modeDescription (mode : String) : String :=
  if mode = "manual" then
    "<strong>Manual Mode:</strong> Control the rover with buttons or keyboard"
  else if mode = "autonomous" then
    "<strong>Autonomous Mode:</strong> Rover avoids obstacles automatically using ultrasonic sensor"
  else "undefined"

/-- JS string interpolation of a possibly-undefined number. -/

def jsNum (v : Option Int) : String :=
  match v with
  | some n => toString n
  | none => "undefined"

/-- Assigning a possibly-undefined string to textContent: undefined is
coerced to its string form. -/

def jsText (v : Option String) : String :=
  match v with
  | some s => s
  | none => "undefined"

/-- Display string for the battery voltage; stands for the toFixed(2)
formatting in the script, whose exact decimal rendering is not modelled. -/

def batteryDisplay (b : ℚ) : String := toString b ++ " V"

/-- updateConnectionStatus(connected), lines 241 to 254: on success set the
Connected banner and reset failCount; on failure increment failCount and,
once it exceeds 3, show Disconnected and blank the signal display. -/

def updateConnectionStatus (connected : Bool) (st : RoverState) : RoverState :=
  if connected then
    { st with statusText := "✅ Connected", statusClass := "status connected", failCount := 0 }
  else
    let st := { st with failCount := st.failCount + 1 }
    if st.failCount > 3 then
      { st with statusText := "⚠️ Disconnected", statusClass := "status disconnected",
                signalText := "Signal: --" }
    else st

/-- move(direction), lines 134 to 164: guard on manual mode, toggle rule,
record lastCommand and the action display, then GET /action?go=direction.
On a 2xx response mark connected; a non-2xx response does nothing; on a
rejected fetch mark a failure.  The fetch outcome carries response.ok. -/

def move (direction : String) (st : RoverState) (outcome : FetchResult Bool) :
    RoverState × List Request :=
  if st.currentMode ≠ "manual" then (st, [])
  else
    let direction := if st.lastCommand = direction ∧ direction ≠ "stop" then "stop" else direction
    let st := { st with lastCommand := direction, actionText := direction }
    let req := Request.actionReq st.roverIP direction
    match outcome with
    | FetchResult.success ok => (if ok then updateConnectionStatus true st else st, [req])
    | FetchResult.failure => (updateConnectionStatus false st, [req])

/-- switchMode(mode), lines 73 to 103: set and persist the mode, update the
mode displays, then GET /mode?mode=mode; only if that fetch resolves and the
new mode is manual, call move(stop).  A rejected fetch is caught and only
logged, skipping the move call.  moveOutcome is the outcome of the fetch the
inner move performs, when it happens. -/

def switchMode (mode : String) (st : RoverState) (modeOutcome : FetchResult Unit)
    (moveOutcome : FetchResult Bool) : RoverState × List Request :=
  let st := { st with currentMode := mode, storedMode := some mode,
                      modeDescHTML := modeDescription mode, activeModeText := mode }
  let req := Request.modeReq st.roverIP mode
  match modeOutcome with
  | FetchResult.failure => (st, [req])
  | FetchResult.success _ =>
    if mode = "manual" then
      let p := move "stop" st moveOutcome
      (p.1, req :: p.2)
    else (st, [req])

/-- updateSpeed(value), lines 166 to 177: update the speed display and GET
/speed?val=value; the outcome of the fetch is ignored apart from logging, so
the state is the same whether it resolves or rejects. -/

def updateSpeed (value : Int) (st : RoverState) (_outcome : FetchResult Unit) :
    RoverState × List Request :=
  let st := { st with speedDisplayText := toString value }
  (st, [Request.speedReq st.roverIP value])

/-- fetchStatus(), lines 195 to 239: GET /status.  On a rejected fetch, mark a
failure.  On a non-2xx response nothing at all happens.  On a 2xx response,
parse the body; a parse error, or a missing or null battery field (which makes
battery.toFixed throw before any display is written), is caught and marked as
a failure.  Otherwise update the battery, signal and action displays, the
distance displays with autonomous-only color coding for positive distances,
reconcile the mode by calling switchMode when the reported mode is a nonempty
string different from the current one, and finally mark connected.
modeOutcome and moveOutcome feed the switchMode call when reconciliation
happens. -/

def fetchStatus (st : RoverState) (outcome : FetchResult StatusResp)
    (modeOutcome : FetchResult Unit) (moveOutcome : FetchResult Bool) :
    RoverState × List Request :=
  let req := Request.statusReq st.roverIP
  match outcome with
  | FetchResult.failure => (updateConnectionStatus false st, [req])
  | FetchResult.success resp =>
    if resp.ok then
      match resp.body with
      | BodyResult.parseError => (updateConnectionStatus false st, [req])
      | BodyResult.parsed data =>
        match data.battery with
        | none => (updateConnectionStatus false st, [req])
        | some b =>
          let st := { st with batteryText := batteryDisplay b,
                              signalText := "Signal: " ++ jsNum data.rssi ++ " dBm",
                              actionText := jsText data.command }
          let st :=
            match data.distance with
            | none => st
            | some d =>
              let dist := if d > 0 then toString d ++ " cm" else "-- cm"
              let st := { st with distanceValueText := dist, distanceInfoText := dist }
              if st.currentMode = "autonomous" ∧ d > 0 then
                if d < 15 then { st with distanceColor := "#f56565" }
                else if d < 35 then { st with distanceColor := "#f6ad55" }
                else { st with distanceColor := "#48bb78" }
              else st
          match data.mode with
          | some m =>
            if m ≠ "" ∧ m ≠ st.currentMode then
              let p := switchMode m st modeOutcome moveOutcome
              (updateConnectionStatus true p.1, req :: p.2)
            else (updateConnectionStatus true st, [req])
          | none => (updateConnectionStatus true st, [req])
    else (st, [req])

/-- The trim() of JS strings: strip leading and trailing whitespace.  Defined
by structural list recursion over the characters so that it evaluates on
concrete inputs. -/

def jsTrim (s : String) : String :=
  String.mk (((s.data.dropWhile Char.isWhitespace).reverse.dropWhile Char.isWhitespace).reverse)

/-- connectRover(), lines 54 to 69: read and trim the IP input, assign it to
roverIP before any validation, bail out with an alert when it is empty,
otherwise persist it, show the transitional Connecting banner and run an
immediate fetchStatus.  inputValue is the value of the IP input field; the
trailing outcomes feed the fetchStatus call. -/

def connectRover (inputValue : String) (st : RoverState)
    (outcome : FetchResult StatusResp) (modeOutcome : FetchResult Unit)
    (moveOutcome : FetchResult Bool) : RoverState × List Request :=
  let st := { st with roverIP := jsTrim inputValue }
  if st.roverIP = "" then (st, [])
  else
    let st := { st with storedIP := some st.roverIP,
                        statusText := "🔄 Connecting...", statusClass := "status" }
    fetchStatus st outcome modeOutcome moveOutcome

/-- emergencyStop(), lines 314 to 331: switchMode(manual) and then an explicit
move(stop), unconditionally.  moveOutcome1 feeds the implicit move inside the
mode switch (when it happens), moveOutcome2 the explicit one. -/

def emergencyStop (st : RoverState) (modeOutcome : FetchResult Unit)
    (moveOutcome1 moveOutcome2 : FetchResult Bool) : RoverState × List Request :=
  let p1 := switchMode "manual" st modeOutcome moveOutcome1
  let p2 := move "stop" p1.1 moveOutcome2
  (p2.1, p1.2 ++ p2.2)

/-- The state right after the script's top-level declarations run, before the
DOMContentLoaded handler: the four globals hold their literal initialisers and
the DOM is as the page delivered it (text fields modelled as empty). -/

def initialState : RoverState :=
  { roverIP := "192.168.1.100", lastCommand := "stop", failCount := 0,
    currentMode := "manual", statusText := "", statusClass := "", signalText := "",
    batteryText := "", actionText := "", modeDescHTML := "", activeModeText := "",
    speedDisplayText := "", distanceValueText := "", distanceInfoText := "",
    distanceColor := "", storedIP := none, storedMode := none }

/-- The DOMContentLoaded handler, lines 31 to 50: load the saved IP when
present, and call switchMode only when the saved mode is the exact string
autonomous (in which case no inner move happens).  The periodic fetchStatus
scheduling and keyboard wiring register callbacks and are not part of the
state change. -/

def pageLoad (savedIP savedMode : Option String) (modeOutcome : FetchResult Unit) :
    RoverState × List Request :=
  let st := { initialState with storedIP := savedIP, storedMode := savedMode }
  let st :=
    match savedIP with
    | some ip => { st with roverIP := ip }
    | none => st
  match savedMode with
  | some m =>
      if m = "autonomous" then switchMode m st modeOutcome (FetchResult.success true)
      else (st, [])
  | none => (st, [])

/-- One failed telemetry poll: the state change fetchStatus makes when the
GET /status fetch rejects (the mode and move outcomes are irrelevant there). -/
def failedPoll (st : RoverState) : RoverState :=
  (fetchStatus st FetchResult.failure FetchResult.failure FetchResult.failure).1

/-- The specified invariant on the mode variable: it is one of the two
enumerated values. -/
def ModeOK (st : RoverState) : Prop :=
  st.currentMode = "manual" ∨ st.currentMode = "autonomous"

instance (st : RoverState) : Decidable (ModeOK st) := by
  unfold ModeOK; infer_instance

/-- The mode field a /status response reports, when it reports one, is a legal
enumerated mode.  Trivially true for failures, non-parsed bodies, and absent
modes; used as the environment assumption of the amended mode invariant. -/
def RemoteModeOK : FetchResult StatusResp → Prop := fun o =>
  match o with
  | FetchResult.success ⟨_, BodyResult.parsed d⟩ =>
      d.mode = none ∨ d.mode = some "manual" ∨ d.mode = some "autonomous"
  | _ => True

/-- A session state in the Connected connectivity state with a concrete signal
reading on display, as after a successful poll. -/
def connectedState : RoverState :=
  { initialState with statusText := "✅ Connected", statusClass := "status connected",
                      signalText := "Signal: -50 dBm" }

/-- The session state with autonomous mode active, as after switching modes. -/
def autoState : RoverState := { initialState with currentMode := "autonomous" }

/-! Frame and unfolding lemmas used by the claim proofs below. -/

lemma updateConnectionStatus_frame (c : Bool) (st : RoverState) :
    (updateConnectionStatus c st).currentMode = st.currentMode
    ∧ (updateConnectionStatus c st).roverIP = st.roverIP
    ∧ (updateConnectionStatus c st).storedIP = st.storedIP
    ∧ (updateConnectionStatus c st).lastCommand = st.lastCommand
    ∧ (updateConnectionStatus c st).batteryText = st.batteryText
    ∧ (updateConnectionStatus c st).actionText = st.actionText
    ∧ (updateConnectionStatus c st).distanceValueText = st.distanceValueText
    ∧ (updateConnectionStatus c st).distanceInfoText = st.distanceInfoText
    ∧ (updateConnectionStatus c st).distanceColor = st.distanceColor := by
  unfold updateConnectionStatus
  dsimp only
  split_ifs <;> simp

lemma move_frame (d : String) (st : RoverState) (o : FetchResult Bool) :
    ((move d st o).1).currentMode = st.currentMode
    ∧ ((move d st o).1).roverIP = st.roverIP
    ∧ ((move d st o).1).storedIP = st.storedIP
    ∧ ((move d st o).1).distanceColor = st.distanceColor := by
  unfold move
  split_ifs <;> cases o <;> dsimp only
  all_goals first
    | (rename_i ok; cases ok <;> simp [updateConnectionStatus_frame])
    | simp [updateConnectionStatus_frame]

lemma switchMode_state (m : String) (st : RoverState) (a : FetchResult Unit)
    (b : FetchResult Bool) :
    ((switchMode m st a b).1).currentMode = m
    ∧ ((switchMode m st a b).1).roverIP = st.roverIP
    ∧ ((switchMode m st a b).1).storedIP = st.storedIP
    ∧ ((switchMode m st a b).1).distanceColor = st.distanceColor := by
  unfold switchMode
  cases a <;> dsimp only
  all_goals first
    | (split_ifs <;> simp [move_frame])
    | simp

lemma move_stop_reqs (st : RoverState) (o : FetchResult Bool) (h : st.currentMode = "manual") :
    (move "stop" st o).2 = [Request.actionReq st.roverIP "stop"] := by
  unfold move
  rw [if_neg (by simp [h])]
  cases o <;> simp

lemma switchMode_manual_reqs (st : RoverState) (mv : FetchResult Bool) :
    (switchMode "manual" st (FetchResult.success ()) mv).2
      = [Request.modeReq st.roverIP "manual", Request.actionReq st.roverIP "stop"]
    ∧ (switchMode "manual" st FetchResult.failure mv).2
      = [Request.modeReq st.roverIP "manual"] := by
  constructor
  · unfold switchMode
    dsimp only
    rw [if_pos rfl, move_stop_reqs _ _ (by simp)]
  · unfold switchMode
    dsimp only

lemma ucs_true (st : RoverState) :
    (updateConnectionStatus true st).failCount = 0
    ∧ (updateConnectionStatus true st).statusText = "✅ Connected"
    ∧ (updateConnectionStatus true st).statusClass = "status connected" := by
  unfold updateConnectionStatus
  simp

lemma move_manual_eff (d : String) (st : RoverState) (o : FetchResult Bool)
    (h : st.currentMode = "manual") :
    (move d st o).2
      = [Request.actionReq st.roverIP (if st.lastCommand = d ∧ d ≠ "stop" then "stop" else d)]
    ∧ (move d st o).1.lastCommand = (if st.lastCommand = d ∧ d ≠ "stop" then "stop" else d) := by
  unfold move
  rw [if_neg (by simp [h])]
  dsimp only
  cases o
  · rename_i ok
    cases ok <;> simp [updateConnectionStatus_frame]
  · simp [updateConnectionStatus_frame]

lemma fetchStatus_parsed_success (st : RoverState) (data : StatusData) (b : ℚ)
    (mo : FetchResult Unit) (mv : FetchResult Bool) (hb : data.battery = some b) :
    ∃ st2 reqs, fetchStatus st (FetchResult.success ⟨true, BodyResult.parsed data⟩) mo mv
      = (updateConnectionStatus true st2, Request.statusReq st.roverIP :: reqs) := by
  rcases data with ⟨battery, rssi, command, distance, mode⟩
  subst hb
  unfold fetchStatus
  dsimp only
  cases distance <;> cases mode <;> dsimp only <;> split_ifs <;>
    first
      | exact ⟨_, _, rfl⟩
      | simp_all

lemma failedPoll_eq (st : RoverState) : failedPoll st = updateConnectionStatus false st := rfl

lemma ucs_false_low (st : RoverState) (h : st.failCount + 1 ≤ 3) :
    updateConnectionStatus false st = { st with failCount := st.failCount + 1 } := by
  unfold updateConnectionStatus
  rw [if_neg (by simp)]
  dsimp only
  rw [if_neg (by omega)]

lemma ucs_false_count (st : RoverState) :
    (updateConnectionStatus false st).failCount = st.failCount + 1 := by
  unfold updateConnectionStatus
  rw [if_neg (by simp)]
  dsimp only
  split_ifs <;> rfl

lemma fetchStatus_display (st : RoverState) (data : StatusData) (b : ℚ)
    (mo : FetchResult Unit) (mv : FetchResult Bool) (hb : data.battery = some b) :
    (fetchStatus st (FetchResult.success ⟨true, BodyResult.parsed data⟩) mo mv).1.distanceColor
      = (match data.distance with
         | none => st.distanceColor
         | some d =>
           if st.currentMode = "autonomous" ∧ d > 0 then
             if d < 15 then "#f56565" else if d < 35 then "#f6ad55" else "#48bb78"
           else st.distanceColor) := by
  rcases data with ⟨battery, rssi, command, distance, mode⟩
  subst hb
  unfold fetchStatus
  dsimp only
  rw [if_pos rfl]
  cases distance <;> cases mode <;> dsimp only <;>
    first
      | (split_ifs <;>
          simp [(updateConnectionStatus_frame true _).2.2.2.2.2.2.2.2,
                (switchMode_state _ _ mo mv).2.2.2])
      | simp [(updateConnectionStatus_frame true _).2.2.2.2.2.2.2.2,
              (switchMode_state _ _ mo mv).2.2.2]

lemma fetchStatus_frame (st : RoverState) (o : FetchResult StatusResp)
    (mo : FetchResult Unit) (mv : FetchResult Bool) :
    ((fetchStatus st o mo mv).1).roverIP = st.roverIP
    ∧ ((fetchStatus st o mo mv).1).storedIP = st.storedIP
    ∧ (fetchStatus st o mo mv).2.head? = some (Request.statusReq st.roverIP) := by
  unfold fetchStatus
  cases o with
  | failure => simp [updateConnectionStatus_frame]
  | success resp =>
    rcases resp with ⟨ok, body⟩
    cases ok
    · dsimp only
      rw [if_neg (by simp)]
      exact ⟨rfl, rfl, rfl⟩
    · dsimp only
      rw [if_pos rfl]
      cases body with
      | parseError => simp [updateConnectionStatus_frame]
      | parsed data =>
        rcases data with ⟨battery, rssi, command, distance, mode⟩
        cases battery
        · simp [updateConnectionStatus_frame]
        · dsimp only
          cases distance <;> cases mode <;> dsimp only <;>
            first
              | (split_ifs <;> simp [updateConnectionStatus_frame, switchMode_state])
              | simp [updateConnectionStatus_frame, switchMode_state]

lemma ModeOK_congr {X st : RoverState} (h : X.currentMode = st.currentMode)
    (hst : ModeOK st) : ModeOK X := by
  unfold ModeOK at *
  rw [h]
  exact hst

/-! Claim theorems. -/

/-- Claim C1 (amended): switchMode(manual) issues the go=stop request right
after the GET /mode request whenever that request resolves, from every prior
state and even if Mode was already manual; when the /mode fetch rejects, the
catch block skips the move call and only the mode request is issued. -/
theorem switchMode_manual_stop_iff_mode_request_resolves (st : RoverState)
    (mv : FetchResult Bool) :
    (switchMode "manual" st (FetchResult.success ()) mv).2
      = [Request.modeReq st.roverIP "manual", Request.actionReq st.roverIP "stop"]
    ∧ (switchMode "manual" st FetchResult.failure mv).2
      = [Request.modeReq st.roverIP "manual"] :=
  switchMode_manual_reqs st mv

/-- Claim C1 counterexample: when the GET /mode fetch rejects, switchMode with
manual issues no go=stop request, contradicting the regardless-of-outcome part
of the claim. -/
theorem C1_counterexample :
    Request.actionReq "192.168.1.100" "stop"
      ∉ (switchMode "manual" initialState FetchResult.failure (FetchResult.success true)).2 := by
  decide

/-- Claim C2 (amended): in manual mode with d not stop, if LastCommand already
equals d then the effective direction sent is stop and LastCommand is set to
stop before the request (the general toggle rule); and whenever LastCommand
differs from d beforehand, two consecutive move(d) calls send d then stop and
leave LastCommand = stop. -/
theorem move_toggle_and_double_press (st : RoverState) (d : String)
    (o1 o2 : FetchResult Bool) (hm : st.currentMode = "manual") (hd : d ≠ "stop") :
    (st.lastCommand = d →
       (move d st o1).2 = [Request.actionReq st.roverIP "stop"]
       ∧ (move d st o1).1.lastCommand = "stop")
    ∧ (st.lastCommand ≠ d →
       (move d st o1).2 = [Request.actionReq st.roverIP d]
       ∧ (move d st o1).1.lastCommand = d
       ∧ (move d ((move d st o1).1) o2).2 = [Request.actionReq st.roverIP "stop"]
       ∧ (move d ((move d st o1).1) o2).1.lastCommand = "stop") := by
  constructor
  · intro h1
    have := move_manual_eff d st o1 hm
    rw [if_pos ⟨h1, hd⟩] at this
    exact this
  · intro h1
    have first := move_manual_eff d st o1 hm
    rw [if_neg (by simp [h1])] at first
    have hm2 : ((move d st o1).1).currentMode = "manual" := by
      rw [(move_frame d st o1).1, hm]
    have second := move_manual_eff d ((move d st o1).1) o2 hm2
    rw [if_pos ⟨first.2, hd⟩, (move_frame d st o1).2.1] at second
    exact ⟨first.1, first.2, second.1, second.2⟩

/-- Claim C2 witness: from the initial state (LastCommand stop), two
consecutive move(forward) calls send forward then stop. -/
theorem move_toggle_and_double_press_witness :
    ((move "forward" initialState (FetchResult.success true)).2
       = [Request.actionReq "192.168.1.100" "forward"]
     ∧ (move "forward" initialState (FetchResult.success true)).1.lastCommand = "forward"
     ∧ (move "forward" ((move "forward" initialState (FetchResult.success true)).1)
         (FetchResult.success true)).2 = [Request.actionReq "192.168.1.100" "stop"]
     ∧ (move "forward" ((move "forward" initialState (FetchResult.success true)).1)
         (FetchResult.success true)).1.lastCommand = "stop") :=
  (move_toggle_and_double_press initialState "forward" (FetchResult.success true)
    (FetchResult.success true) rfl (by decide)).2 (by decide)

/-- Claim C2 counterexample: from the reachable state whose LastCommand is
already forward, two consecutive move(forward) calls end with LastCommand =
forward and a second request of go=forward, not stop; the claim as stated,
quantified over every prior state, therefore fails. -/
theorem C2_counterexample :
    ((move "forward" ((move "forward" { initialState with lastCommand := "forward" }
        (FetchResult.success true)).1) (FetchResult.success true)).1).lastCommand ≠ "stop"
    ∧ ((move "forward" ((move "forward" { initialState with lastCommand := "forward" }
        (FetchResult.success true)).1) (FetchResult.success true)).2)
      ≠ [Request.actionReq "192.168.1.100" "stop"] := by
  decide

/-- Claim C3: emergencyStop forces Mode to manual and its explicit move(stop)
issues a final GET /action?go=stop, for every prior state, whether the GET
/mode request of the embedded mode switch resolves (three requests, the
implicit and explicit stops) or rejects (mode request plus explicit stop). -/
theorem emergencyStop_always_stops (st : RoverState) (mo : FetchResult Unit)
    (mv1 mv2 : FetchResult Bool) :
    (emergencyStop st mo mv1 mv2).1.currentMode = "manual"
    ∧ (emergencyStop st (FetchResult.success ()) mv1 mv2).2
      = [Request.modeReq st.roverIP "manual", Request.actionReq st.roverIP "stop",
         Request.actionReq st.roverIP "stop"]
    ∧ (emergencyStop st FetchResult.failure mv1 mv2).2
      = [Request.modeReq st.roverIP "manual", Request.actionReq st.roverIP "stop"] := by
  refine ⟨?_, ?_, ?_⟩
  · unfold emergencyStop
    have h1 := switchMode_state "manual" st mo mv1
    have h2 := move_frame "stop" (switchMode "manual" st mo mv1).1 mv2
    simp [h2.1, h1.1]
  · unfold emergencyStop
    dsimp only
    have h1 := switchMode_state "manual" st (FetchResult.success ()) mv1
    rw [(switchMode_manual_reqs st mv1).1, move_stop_reqs _ _ h1.1, h1.2.1]
    simp
  · unfold emergencyStop
    dsimp only
    have h1 := switchMode_state "manual" st FetchResult.failure mv1
    rw [(switchMode_manual_reqs st mv1).2, move_stop_reqs _ _ h1.1, h1.2.1]
    simp

/-- Claim C4 (amended): a successful telemetry poll and a 2xx movement command
set the Connected banner and reset the failure count to 0 from any state, but
a speed request never touches the connectivity state regardless of outcome,
and the mode request of switchMode never touches the failure count itself
(only the implicit stop of a resolved switch to manual can). -/
theorem connectivity_reset_rules :
    (∀ st : RoverState, ∀ data : StatusData, ∀ b : ℚ,
       ∀ mo : FetchResult Unit, ∀ mv : FetchResult Bool, data.battery = some b →
        (fetchStatus st (FetchResult.success ⟨true, BodyResult.parsed data⟩) mo mv).1.failCount = 0
        ∧ (fetchStatus st (FetchResult.success ⟨true, BodyResult.parsed data⟩) mo mv).1.statusText
            = "✅ Connected")
    ∧ (∀ st : RoverState, ∀ d : String, st.currentMode = "manual" →
        (move d st (FetchResult.success true)).1.failCount = 0
        ∧ (move d st (FetchResult.success true)).1.statusText = "✅ Connected")
    ∧ (∀ st : RoverState, ∀ v : Int, ∀ o : FetchResult Unit,
        (updateSpeed v st o).1.failCount = st.failCount
        ∧ (updateSpeed v st o).1.statusText = st.statusText
        ∧ (updateSpeed v st o).1.statusClass = st.statusClass
        ∧ (updateSpeed v st o).1.signalText = st.signalText)
    ∧ (∀ st : RoverState, ∀ m : String, ∀ mo : FetchResult Unit, ∀ mv : FetchResult Bool,
        m ≠ "manual" → (switchMode m st mo mv).1.failCount = st.failCount)
    ∧ (∀ st : RoverState, ∀ mv : FetchResult Bool,
        (switchMode "manual" st FetchResult.failure mv).1.failCount = st.failCount) := by
  refine ⟨?_, ?_, ?_, ?_, ?_⟩
  · intro st data b mo mv hb
    obtain ⟨st2, reqs, h⟩ := fetchStatus_parsed_success st data b mo mv hb
    rw [h]
    exact ⟨(ucs_true st2).1, (ucs_true st2).2.1⟩
  · intro st d hm
    unfold move
    rw [if_neg (by simp [hm])]
    dsimp only
    exact ⟨(ucs_true _).1, (ucs_true _).2.1⟩
  · intro st v o
    unfold updateSpeed
    simp
  · intro st m mo mv hm
    unfold switchMode
    cases mo <;> (dsimp only; try rw [if_neg hm])
  · intro st mv
    unfold switchMode
    dsimp only

/-- Claim C4 witness: a successful poll from a Degraded state with failure
count 2 resets the count and shows Connected. -/
theorem connectivity_reset_rules_witness :
    (fetchStatus { initialState with failCount := 2 }
       (FetchResult.success ⟨true, BodyResult.parsed ⟨some 7, some (-50), some "stop", none, none⟩⟩)
       FetchResult.failure FetchResult.failure).1.failCount = 0
    ∧ (fetchStatus { initialState with failCount := 2 }
       (FetchResult.success ⟨true, BodyResult.parsed ⟨some 7, some (-50), some "stop", none, none⟩⟩)
       FetchResult.failure FetchResult.failure).1.statusText = "✅ Connected" :=
  connectivity_reset_rules.1 { initialState with failCount := 2 }
    ⟨some 7, some (-50), some "stop", none, none⟩ 7 FetchResult.failure FetchResult.failure rfl

/-- Claim C4 counterexample: a successful speed request from a state with
failure count 2 leaves the count at 2, contradicting the claim that every
successful request of any kind resets it to 0. -/
theorem C4_counterexample :
    (updateSpeed 5 { initialState with failCount := 2 } (FetchResult.success ())).1.failCount ≠ 0 := by
  decide

/-- Claim C5: starting from Connected with failure count 0, three consecutive
failed polls leave the Connected banner and the signal display unchanged, and
the fourth consecutive failure switches the banner to Disconnected and blanks
the signal display exactly at that transition. -/
theorem disconnected_after_fourth_failure (st : RoverState)
    (h0 : st.failCount = 0) (hs : st.statusText = "✅ Connected") :
    (failedPoll st).statusText = "✅ Connected"
    ∧ (failedPoll st).signalText = st.signalText
    ∧ (failedPoll (failedPoll st)).statusText = "✅ Connected"
    ∧ (failedPoll (failedPoll st)).signalText = st.signalText
    ∧ (failedPoll (failedPoll (failedPoll st))).statusText = "✅ Connected"
    ∧ (failedPoll (failedPoll (failedPoll st))).signalText = st.signalText
    ∧ (failedPoll (failedPoll (failedPoll (failedPoll st)))).statusText = "⚠️ Disconnected"
    ∧ (failedPoll (failedPoll (failedPoll (failedPoll st)))).signalText = "Signal: --"
    ∧ (failedPoll (failedPoll (failedPoll (failedPoll st)))).statusClass
        = "status disconnected" := by
  have e1 : failedPoll st = { st with failCount := 1 } := by
    rw [failedPoll_eq, ucs_false_low st (by omega), h0]
  have e2 : failedPoll { st with failCount := 1 } = { st with failCount := 2 } := by
    rw [failedPoll_eq, ucs_false_low _ (by simp)]
  have e3 : failedPoll { st with failCount := 2 } = { st with failCount := 3 } := by
    rw [failedPoll_eq, ucs_false_low _ (by simp)]
  have e4 : failedPoll { st with failCount := 3 }
      = { st with failCount := 4, statusText := "⚠️ Disconnected",
                  statusClass := "status disconnected", signalText := "Signal: --" } := by
    rw [failedPoll_eq]
    unfold updateConnectionStatus
    rw [if_neg (by simp)]
    dsimp only
    rw [if_pos (by simp)]
  rw [e1, e2, e3, e4]
  simp [hs]

/-- Claim C5 witness: the transition sequence evaluated from a concrete
Connected state with a signal reading on display. -/
theorem disconnected_after_fourth_failure_witness :
    connectedState.failCount = 0
    ∧ connectedState.statusText = "✅ Connected"
    ∧ ((failedPoll connectedState).statusText = "✅ Connected"
       ∧ (failedPoll connectedState).signalText = connectedState.signalText
       ∧ (failedPoll (failedPoll connectedState)).statusText = "✅ Connected"
       ∧ (failedPoll (failedPoll connectedState)).signalText = connectedState.signalText
       ∧ (failedPoll (failedPoll (failedPoll connectedState))).statusText = "✅ Connected"
       ∧ (failedPoll (failedPoll (failedPoll connectedState))).signalText
           = connectedState.signalText
       ∧ (failedPoll (failedPoll (failedPoll (failedPoll connectedState)))).statusText
           = "⚠️ Disconnected"
       ∧ (failedPoll (failedPoll (failedPoll (failedPoll connectedState)))).signalText
           = "Signal: --"
       ∧ (failedPoll (failedPoll (failedPoll (failedPoll connectedState)))).statusClass
           = "status disconnected") :=
  ⟨rfl, rfl, disconnected_after_fourth_failure connectedState rfl rfl⟩

/-- Claim C6: move(d) while Mode is not manual is a no-op: the state is
unchanged and no HTTP request is issued. -/
theorem move_nonmanual_noop (st : RoverState) (d : String) (o : FetchResult Bool)
    (h : st.currentMode ≠ "manual") :
    move d st o = (st, []) := by
  unfold move
  rw [if_pos h]

/-- Claim C6 witness: move(forward) in autonomous mode at a concrete state
returns the state unchanged with no request. -/
theorem move_nonmanual_noop_witness :
    move "forward" { initialState with currentMode := "autonomous" } (FetchResult.success true)
      = ({ initialState with currentMode := "autonomous" }, []) :=
  move_nonmanual_noop _ "forward" (FetchResult.success true) (by decide)

/-- Claim C7 (amended): on a successful poll carrying a distance, in autonomous
mode the distance color becomes red for 0 < d < 15, orange for 15 <= d <= 34,
green for d >= 35, and is left unchanged for d <= 0; outside autonomous mode,
and when the distance field is absent or null, no color decision is made. -/
theorem fetchStatus_distance_color (st : RoverState) (data : StatusData) (b : ℚ) (d : ℤ)
    (mo : FetchResult Unit) (mv : FetchResult Bool)
    (hb : data.battery = some b) (hd : data.distance = some d) :
    (st.currentMode = "autonomous" →
       (0 < d → d < 15 →
         (fetchStatus st (FetchResult.success ⟨true, BodyResult.parsed data⟩) mo mv).1.distanceColor
           = "#f56565")
       ∧ (15 ≤ d → d ≤ 34 →
         (fetchStatus st (FetchResult.success ⟨true, BodyResult.parsed data⟩) mo mv).1.distanceColor
           = "#f6ad55")
       ∧ (35 ≤ d →
         (fetchStatus st (FetchResult.success ⟨true, BodyResult.parsed data⟩) mo mv).1.distanceColor
           = "#48bb78")
       ∧ (d ≤ 0 →
         (fetchStatus st (FetchResult.success ⟨true, BodyResult.parsed data⟩) mo mv).1.distanceColor
           = st.distanceColor))
    ∧ (st.currentMode ≠ "autonomous" →
         (fetchStatus st (FetchResult.success ⟨true, BodyResult.parsed data⟩) mo mv).1.distanceColor
           = st.distanceColor)
    ∧ (∀ data2 : StatusData, data2.battery = some b → data2.distance = none →
         (fetchStatus st (FetchResult.success ⟨true, BodyResult.parsed data2⟩) mo mv).1.distanceColor
           = st.distanceColor) := by
  have e := fetchStatus_display st data b mo mv hb
  rw [hd] at e
  dsimp only at e
  refine ⟨?_, ?_, ?_⟩
  · intro hmode
    refine ⟨?_, ?_, ?_, ?_⟩
    · intro h1 h2
      rw [e, if_pos ⟨hmode, h1⟩, if_pos h2]
    · intro h1 h2
      rw [e, if_pos ⟨hmode, by omega⟩, if_neg (by omega), if_pos (by omega)]
    · intro h1
      rw [e, if_pos ⟨hmode, by omega⟩, if_neg (by omega), if_neg (by omega)]
    · intro h1
      rw [e, if_neg]
      rintro ⟨-, h2⟩
      omega
  · intro hmode
    rw [e, if_neg]
    rintro ⟨h1, -⟩
    exact hmode h1
  · intro data2 hb2 hd2
    have e2 := fetchStatus_display st data2 b mo mv hb2
    rw [hd2] at e2
    exact e2

/-- Claim C7 witness: distance 10 in autonomous mode colors the display red. -/
theorem fetchStatus_distance_color_witness :
    autoState.currentMode = "autonomous"
    ∧ (fetchStatus autoState
        (FetchResult.success ⟨true, BodyResult.parsed ⟨some 7, some (-50), some "stop", some 10, none⟩⟩)
        FetchResult.failure (FetchResult.success true)).1.distanceColor = "#f56565" :=
  ⟨rfl,
    ((fetchStatus_distance_color autoState
        ⟨some 7, some (-50), some "stop", some 10, none⟩ 7 10
        FetchResult.failure (FetchResult.success true) rfl rfl).1 rfl).1
      (by decide) (by decide)⟩

/-- Claim C7 counterexample: a reported distance of 0 in autonomous mode gets
no color decision, although the claim requires red for every d with
0 <= d < 15. -/
theorem C7_counterexample :
    ((0 : ℤ) ≤ 0 ∧ (0 : ℤ) < 15)
    ∧ (fetchStatus autoState
        (FetchResult.success ⟨true, BodyResult.parsed ⟨some 7, some (-50), some "stop", some 0, none⟩⟩)
        FetchResult.failure (FetchResult.success true)).1.distanceColor ≠ "#f56565"
    ∧ (fetchStatus autoState
        (FetchResult.success ⟨true, BodyResult.parsed ⟨some 7, some (-50), some "stop", some 0, none⟩⟩)
        FetchResult.failure (FetchResult.success true)).1.distanceColor = autoState.distanceColor := by
  refine ⟨by decide, ?_, ?_⟩ <;> decide

/-- Claim C8 (amended): connecting with an input that trims to empty issues no
request and persists nothing, but overwrites the in-memory Endpoint Address
with the empty trimmed string before the validation check; any other input is
trimmed, stored as the active address, persisted, and followed by an immediate
telemetry poll to the new address. -/
theorem connectRover_address_rules :
    (∀ input : String, ∀ st : RoverState, ∀ o : FetchResult StatusResp,
       ∀ mo : FetchResult Unit, ∀ mv : FetchResult Bool, jsTrim input = "" →
        connectRover input st o mo mv = ({ st with roverIP := "" }, []))
    ∧ (∀ input : String, ∀ st : RoverState, ∀ o : FetchResult StatusResp,
       ∀ mo : FetchResult Unit, ∀ mv : FetchResult Bool, jsTrim input ≠ "" →
        (connectRover input st o mo mv).1.roverIP = jsTrim input
        ∧ (connectRover input st o mo mv).1.storedIP = some (jsTrim input)
        ∧ (connectRover input st o mo mv).2.head?
            = some (Request.statusReq (jsTrim input))) := by
  constructor
  · intro input st o mo mv h
    unfold connectRover
    rw [h]
    dsimp only
    rw [if_pos rfl]
  · intro input st o mo mv h
    unfold connectRover
    dsimp only
    rw [if_neg h]
    refine ⟨?_, ?_, ?_⟩ <;> simp [fetchStatus_frame]

/-- Claim C8 witness: connecting with a padded address stores and persists the
trimmed address and polls it immediately. -/
theorem connectRover_address_rules_witness :
    jsTrim "  10.0.0.5 " ≠ ""
    ∧ ((connectRover "  10.0.0.5 " initialState FetchResult.failure FetchResult.failure
          FetchResult.failure).1.roverIP = "10.0.0.5"
       ∧ (connectRover "  10.0.0.5 " initialState FetchResult.failure FetchResult.failure
          FetchResult.failure).1.storedIP = some "10.0.0.5"
       ∧ (connectRover "  10.0.0.5 " initialState FetchResult.failure FetchResult.failure
          FetchResult.failure).2.head? = some (Request.statusReq "10.0.0.5")) :=
  ⟨by decide,
   connectRover_address_rules.2 "  10.0.0.5 " initialState FetchResult.failure
     FetchResult.failure FetchResult.failure (by decide)⟩

/-- Claim C8 counterexample: connecting with a whitespace-only input overwrites
the in-memory rover address with the empty string, although the claim says no
new active Endpoint Address is stored. -/
theorem C8_counterexample :
    (connectRover "   " initialState FetchResult.failure FetchResult.failure
        FetchResult.failure).1.roverIP = ""
    ∧ (connectRover "   " initialState FetchResult.failure FetchResult.failure
        FetchResult.failure).1.roverIP ≠ initialState.roverIP
    ∧ (connectRover "   " initialState FetchResult.failure FetchResult.failure
        FetchResult.failure).2 = [] := by
  refine ⟨?_, ?_, ?_⟩ <;> decide

/-- Claim C9 (amended): a non-2xx /status response is silently ignored, leaving
the entire state, including the failure count, unchanged; a body that fails to
parse, or whose battery field is missing or null, is treated like a network
failure, incrementing the count while retaining the displayed telemetry (the
signal display is blanked only once the count exceeds 3). -/
theorem fetchStatus_bad_response_rules :
    (∀ st : RoverState, ∀ body : BodyResult, ∀ mo : FetchResult Unit, ∀ mv : FetchResult Bool,
        fetchStatus st (FetchResult.success ⟨false, body⟩) mo mv
          = (st, [Request.statusReq st.roverIP]))
    ∧ (∀ st : RoverState, ∀ mo : FetchResult Unit, ∀ mv : FetchResult Bool,
        fetchStatus st (FetchResult.success ⟨true, BodyResult.parseError⟩) mo mv
          = (updateConnectionStatus false st, [Request.statusReq st.roverIP]))
    ∧ (∀ st : RoverState, ∀ data : StatusData, ∀ mo : FetchResult Unit, ∀ mv : FetchResult Bool,
        data.battery = none →
        fetchStatus st (FetchResult.success ⟨true, BodyResult.parsed data⟩) mo mv
          = (updateConnectionStatus false st, [Request.statusReq st.roverIP]))
    ∧ (∀ st : RoverState,
        (updateConnectionStatus false st).failCount = st.failCount + 1
        ∧ (updateConnectionStatus false st).batteryText = st.batteryText
        ∧ (updateConnectionStatus false st).actionText = st.actionText
        ∧ (updateConnectionStatus false st).distanceValueText = st.distanceValueText
        ∧ (updateConnectionStatus false st).distanceInfoText = st.distanceInfoText
        ∧ (updateConnectionStatus false st).distanceColor = st.distanceColor
        ∧ (st.failCount + 1 ≤ 3 →
            (updateConnectionStatus false st).signalText = st.signalText)) := by
  refine ⟨?_, ?_, ?_, ?_⟩
  · intro st body mo mv
    unfold fetchStatus
    dsimp only
    rw [if_neg (by simp)]
  · intro st mo mv
    rfl
  · intro st data mo mv hb
    rcases data with ⟨battery, rssi, command, distance, mode⟩
    dsimp only at hb
    subst hb
    rfl
  · intro st
    have hf := updateConnectionStatus_frame false st
    refine ⟨ucs_false_count st, hf.2.2.2.2.1, hf.2.2.2.2.2.1, hf.2.2.2.2.2.2.1,
            hf.2.2.2.2.2.2.2.1, hf.2.2.2.2.2.2.2.2, ?_⟩
    intro h
    rw [ucs_false_low st h]

/-- Claim C9 witness: a 2xx response with the battery field missing is marked
as a failure, and below the threshold the signal display is retained. -/
theorem fetchStatus_bad_response_rules_witness :
    fetchStatus initialState
        (FetchResult.success ⟨true, BodyResult.parsed ⟨none, some (-50), some "stop", none, none⟩⟩)
        FetchResult.failure FetchResult.failure
      = (updateConnectionStatus false initialState, [Request.statusReq "192.168.1.100"])
    ∧ initialState.failCount + 1 ≤ 3
    ∧ (updateConnectionStatus false initialState).signalText = initialState.signalText :=
  ⟨fetchStatus_bad_response_rules.2.2.1 initialState
     ⟨none, some (-50), some "stop", none, none⟩ FetchResult.failure FetchResult.failure rfl,
   by decide,
   (fetchStatus_bad_response_rules.2.2.2 initialState).2.2.2.2.2.2 (by decide)⟩

/-- Claim C9 counterexample: a non-2xx response leaves the whole state
unchanged, with the failure count not incremented, although the claim requires
it to be treated as a failure. -/
theorem C9_counterexample :
    fetchStatus initialState (FetchResult.success ⟨false, BodyResult.parseError⟩)
        FetchResult.failure FetchResult.failure
      = (initialState, [Request.statusReq "192.168.1.100"])
    ∧ (fetchStatus initialState (FetchResult.success ⟨false, BodyResult.parseError⟩)
        FetchResult.failure FetchResult.failure).1.failCount ≠ initialState.failCount + 1 := by
  exact ⟨by decide, by decide⟩

/-- Claim C10 (amended): startup initialisation, switchMode called with one of
the two enumerated modes, and the telemetry reconciliation all preserve
membership of Mode in the enumerated set, provided the remote-reported mode,
when present, is itself one of the two values; the code copies the remote
string into Mode unvalidated. -/
theorem mode_enum_invariant :
    (∀ savedIP savedMode : Option String, ∀ mo : FetchResult Unit,
        ModeOK (pageLoad savedIP savedMode mo).1)
    ∧ (∀ m : String, ∀ st : RoverState, ∀ mo : FetchResult Unit, ∀ mv : FetchResult Bool,
        m = "manual" ∨ m = "autonomous" → ModeOK (switchMode m st mo mv).1)
    ∧ (∀ st : RoverState, ∀ o : FetchResult StatusResp,
       ∀ mo : FetchResult Unit, ∀ mv : FetchResult Bool,
        ModeOK st → RemoteModeOK o → ModeOK (fetchStatus st o mo mv).1) := by
  have hsw : ∀ (m : String) (st : RoverState) (mo : FetchResult Unit) (mv : FetchResult Bool),
      m = "manual" ∨ m = "autonomous" → ModeOK (switchMode m st mo mv).1 := by
    intro m st mo mv hm
    unfold ModeOK
    rw [(switchMode_state m st mo mv).1]
    exact hm
  refine ⟨?_, hsw, ?_⟩
  · intro savedIP savedMode mo
    unfold pageLoad
    cases savedMode <;> cases savedIP <;> dsimp only <;>
      first
        | (split_ifs with h
           · exact hsw _ _ _ _ (Or.inr h)
           · exact Or.inl rfl)
        | exact Or.inl rfl
  · intro st o mo mv hst hr
    unfold fetchStatus
    cases o with
    | failure => exact ModeOK_congr (updateConnectionStatus_frame false st).1 hst
    | success resp =>
      rcases resp with ⟨ok, body⟩
      cases ok
      · dsimp only
        rw [if_neg (by simp)]
        exact hst
      · dsimp only
        rw [if_pos rfl]
        cases body with
        | parseError => exact ModeOK_congr (updateConnectionStatus_frame false st).1 hst
        | parsed data =>
          rcases data with ⟨battery, rssi, command, distance, mode⟩
          cases battery
          · exact ModeOK_congr (updateConnectionStatus_frame false st).1 hst
          · unfold RemoteModeOK at hr
            dsimp only at hr ⊢
            cases mode with
            | none =>
              cases distance <;> dsimp only <;>
                first
                  | (split_ifs <;>
                      exact ModeOK_congr (by simp [(updateConnectionStatus_frame true _).1]) hst)
                  | exact ModeOK_congr (by simp [(updateConnectionStatus_frame true _).1]) hst
            | some m =>
              have hm : m = "manual" ∨ m = "autonomous" := by
                rcases hr with h | h | h
                · exact absurd h (by simp)
                · exact Or.inl (by injection h)
                · exact Or.inr (by injection h)
              cases distance <;> dsimp only <;> split_ifs <;>
                first
                  | exact ModeOK_congr (updateConnectionStatus_frame true _).1
                      (hsw m _ mo mv hm)
                  | exact ModeOK_congr (by simp [(updateConnectionStatus_frame true _).1]) hst

/-- Claim C10 witness: a poll reporting mode autonomous from the initial
manual state keeps Mode inside the enumerated set. -/
theorem mode_enum_invariant_witness :
    ModeOK initialState
    ∧ RemoteModeOK (FetchResult.success ⟨true,
        BodyResult.parsed ⟨some 7, some (-50), some "stop", none, some "autonomous"⟩⟩)
    ∧ ModeOK (fetchStatus initialState
        (FetchResult.success ⟨true,
          BodyResult.parsed ⟨some 7, some (-50), some "stop", none, some "autonomous"⟩⟩)
        FetchResult.failure (FetchResult.success true)).1 :=
  ⟨Or.inl rfl, Or.inr (Or.inr rfl),
   mode_enum_invariant.2.2 initialState
     (FetchResult.success ⟨true,
       BodyResult.parsed ⟨some 7, some (-50), some "stop", none, some "autonomous"⟩⟩)
     FetchResult.failure (FetchResult.success true) (Or.inl rfl) (Or.inr (Or.inr rfl))⟩

/-- Claim C10 counterexample: a poll reporting the mode string x makes the
reconciliation copy x into Mode, leaving the enumerated set, although the
claim asserts membership in every reachable state. -/
theorem C10_counterexample :
    ¬ ModeOK (fetchStatus initialState
      (FetchResult.success ⟨true,
        BodyResult.parsed ⟨some 7, some (-50), some "stop", none, some "x"⟩⟩)
      FetchResult.failure (FetchResult.success true)).1 := by
  decide

end EveRover
